import Mathlib

/-
  Verification of the two source files of the `ewah` repository:

  * `src/ewah/hooks/airflow.py` — `EWAHAirflowHook.get_data_in_batches`, a
    paginated HTTP client implemented as a Python generator.
  * `src/ewah/ewah_utils/dag_factory_incremental.py` —
    `dag_factory_incremental_loading`, a factory building three coordinated
    DAGs, and `ExtendedETS.execute`, a sensor extension.

  The embedding is shallow: datetimes and timedeltas are microsecond counts
  (`Int`, matching CPython's internal microsecond resolution), the float
  division of two timedeltas is modelled by exact rational division (`ℚ`),
  Python exceptions are `Except.error` carrying the message, and the
  generator is a fuel-indexed recursive function returning the list of
  yielded batches together with the list of requested offsets and the final
  outcome.
-/

namespace Ewah

/-! ### JSON values

`request.json()` returns a parsed JSON value.  Python dicts preserve
insertion order, which `get_data_in_batches` relies on (`keys[0]`,
`keys[1]`), so objects are ordered association lists. -/

inductive J : Type where
  | num (n : Int)
  | str (s : String)
  | arr (xs : List J)
  | obj (fields : List (String × J))

/-- `response[k]` for an object's field list: first binding of key `k`. -/
def jLookup (fields : List (String × J)) (k : String) : Option J :=
  (fields.find? (fun kv => kv.1 = k)).map (fun kv => kv.2)

/-- One HTTP response as seen by the loop body: `request.status_code`,
`request.text`, and `request.json()`. -/
structure HttpResp where
  statusCode : Int
  text : String
  json : J

/-- What one loop iteration does with a parsed response, mirroring
lines 71–92 of `src/ewah/hooks/airflow.py`:

* `page records total` — `"total_entries" in keys`: the data key is
  `keys[1]` if `keys[0] == "total_entries"` else `keys[0]`; its value (a
  JSON array) is appended to `data` and `total` is the value of
  `"total_entries"`;
* `nonPaginated r` — no `"total_entries"` key: the whole response object is
  yielded as a one-element list;
* `pyError` — the Python code would raise (e.g. `.keys()` on a non-dict,
  `keys[1]` out of range, or the data / total values not being an
  array / number; non-list iterables such as strings are also folded into
  this case). -/
inductive StepKind : Type where
  | page (records : List J) (total : Int)
  | nonPaginated (r : J)
  | pyError

def parseStep : J → StepKind
  | J.obj fields =>
    let keys := fields.map (fun kv => kv.1)
    if "total_entries" ∈ keys then
      match keys with
      | [] => StepKind.pyError
      | k0 :: rest =>
        let dataKey : Option String :=
          if k0 = "total_entries" then rest.head? else some k0
        match dataKey with
        | none => StepKind.pyError
        | some dk =>
          match jLookup fields dk, jLookup fields "total_entries" with
          | some (J.arr xs), some (J.num t) => StepKind.page xs t
          | _, _ => StepKind.pyError
    else StepKind.nonPaginated (J.obj fields)
  | _ => StepKind.pyError

/-- Final outcome of running the generator to exhaustion. -/
inductive RunOut : Type where
  | ok
  | assertFail (text : String)
  | pyError
  | fuelOut
deriving DecidableEq

/-- Observable behaviour of one run of the generator: the batches yielded in
order, the offsets requested in order, and the final outcome. -/
structure RunRes where
  batches : List (List J)
  reqOffsets : List Nat
  out : RunOut

/-- `if len(data) >= batch_size: yield data; data = []` — first component:
batches yielded by this statement; second component: `data` afterwards. -/
def stepYield (batchSize : Nat) (data1 : List J) : List (List J) × List J :=
  if batchSize ≤ data1.length then ([data1], []) else ([], data1)

/-- `if data: yield data` — the final flush before `break`. -/
def flush (data : List J) : List (List J) :=
  if data.isEmpty then [] else [data]

/-- The `while True:` loop of `get_data_in_batches`
(`src/ewah/hooks/airflow.py`, lines 66–93).  `pages` maps the requested
`offset` parameter to the server's response (the `limit` parameter is always
`pageSize`); `offset` and `data` are the loop state (`params["offset"]` and
`data`); `fuel` bounds the number of iterations (the Python loop is
unbounded, `fuelOut` marks runs that would iterate longer). -/
def run (pages : Nat → HttpResp) (pageSize batchSize : Nat) :
    Nat → Nat → List J → RunRes
  | 0, _, _ => ⟨[], [], RunOut.fuelOut⟩
  | fuel + 1, offset, data =>
    let resp := pages offset
    if resp.statusCode = 200 then
      match parseStep resp.json with
      | StepKind.page records total =>
        -- data += response[data_key]
        -- if len(data) >= batch_size: yield data; data = []
        let yd := stepYield batchSize (data ++ records)
        -- if params["offset"] >= response["total_entries"]: flush and break
        if total ≤ (offset : Int) then
          ⟨yd.1 ++ flush yd.2, [offset], RunOut.ok⟩
        else
          -- params["offset"] = params["offset"] + params["limit"]
          let rest := run pages pageSize batchSize fuel (offset + pageSize) yd.2
          ⟨yd.1 ++ rest.batches, offset :: rest.reqOffsets, rest.out⟩
      | StepKind.nonPaginated r => ⟨[[r]], [offset], RunOut.ok⟩
      | StepKind.pyError => ⟨[], [offset], RunOut.pyError⟩
    else
      -- assert request.status_code == 200, request.text
      ⟨[], [offset], RunOut.assertFail resp.text⟩

/-- A full call of the generator: offset starts at `0`, `data` starts empty. -/
def get_data_in_batches (pages : Nat → HttpResp) (pageSize batchSize fuel : Nat) :
    RunRes :=
  run pages pageSize batchSize fuel 0 []

/-- Number of requests the loop makes against pages that all report the same
`total_entries = T`: offsets `0, p, 2p, …` until the first offset `≥ T`,
i.e. `⌈T / p⌉ + 1` requests. -/
def numRequests (T p : Nat) : Nat := (T + p - 1) / p + 1

/-- `Except.isOk` spelled out (avoids relying on a library helper). -/
def exOk {ε α : Type} : Except ε α → Bool
  | Except.ok _ => true
  | Except.error _ => false

/-! ### The incremental-loading DAG factory

`src/ewah/ewah_utils/dag_factory_incremental.py`.  `datetime` and
`timedelta` values are microsecond counts; `datetime.now()` is passed in
as the field `now` of the argument record. -/

def usecPerHour : Int := 3600000000

def usecPerDay : Int := 86400000000

/-- A Python value supplied for a schedule-interval parameter: either a
`datetime.timedelta` (in microseconds) or a value of some other type
(rejected by the `type(x) == timedelta` validation). -/
inductive PyTd : Type where
  | td (usec : Int)
  | nonTd
deriving DecidableEq

/-- The operator class passed to the factory.  `IS_INCREMENTAL = none`
models a class without the `_IS_INCREMENTAL` attribute; `some b` models the
attribute being present with truthiness `b`. -/
structure EtlOperator where
  IS_INCREMENTAL : Option Bool
deriving DecidableEq

/-- Of `operator_config`, the claims only depend on the `tables` mapping
through `operator_config.get('tables')` being falsy, i.e. its key list being
empty or the key missing (empty list models both). -/
structure OperatorConfig where
  tables : List String
deriving DecidableEq

inductive DwhEngine : Type where
  | postgres
  | snowflake
  | unsupported
deriving DecidableEq

/-- One of the three `DAG(...)` constructions (lines 94–120): the fields the
factory actually sets.  `schedule_interval` is `none` for `None` (reset
DAG); dates are microsecond timestamps. -/
structure DagModel where
  dag_id : String
  start_date : Int
  end_date : Option Int
  schedule_interval : Option Int
  catchup : Bool
  max_active_runs : Nat
deriving DecidableEq

structure FactoryArgs where
  dag_base_name : String
  dwh_engine : DwhEngine
  start_date : Int
  etl_operator : EtlOperator
  operator_config : OperatorConfig
  schedule_interval_backfill : PyTd
  schedule_interval_future : PyTd
  switch_date : Option Int
  /-- the value of `datetime.now()` at the moment of the call -/
  now : Int
deriving DecidableEq

/-- Python's `int()` applied to an exact rational: truncation toward zero. -/
def pyInt (q : ℚ) : ℤ := if q < 0 then ⌈q⌉ else ⌊q⌋

def msgIntegerMultiple : String :=
  "The schedule interval of the backfill must be an exact integer multiple of the time period between start date and switch date!"

/-- `dag_factory_incremental_loading` (lines 46–265).  Faithful to the
source in: the seven validation checks in order; defaulting of
`switch_date` from the (injected) clock; the exact-integer-multiple check
(`backfill_tasks_count == round(backfill_tasks_count, 0)`, exact rational
arithmetic standing in for CPython's float division of timedeltas); the
three `DAG(...)` records; and the DWH-engine dispatch, where the
`snowflake` branch refers to `SnowflakeOperator`, a name the module never
imports or defines, so at runtime Python raises `NameError` there.  Task
wiring (`PostgresOperator`, `etl_schema_tasks`, the per-table operator
instantiations) mutates the DAG objects but none of the fields modelled
here, and is treated as total. -/
def dag_factory_incremental_loading (a : FactoryArgs) :
    Except String (List DagModel) :=
  match a.etl_operator.IS_INCREMENTAL with
  | none => Except.error "Invalid operator supplied!"
  | some incr =>
    if incr = false then
      Except.error "Operator does not support incremental loading!"
    else
      match a.schedule_interval_future, a.schedule_interval_backfill with
      | PyTd.nonTd, _ =>
        Except.error "Schedule intervals must be datetime.timedelta!"
      | PyTd.td _, PyTd.nonTd =>
        Except.error "Schedule intervals must be datetime.timedelta!"
      | PyTd.td fut, PyTd.td bf =>
        if bf < usecPerDay then
          Except.error "Backfill schedule interval cannot be below 1 day!"
        else if bf < fut then
          Except.error "Backfill schedule interval must be larger than regular schedule interval!"
        else if a.operator_config.tables = [] then
          Except.error "Requires a \"tables\" dictionary in operator_config!"
        else
          let switch : Int :=
            match a.switch_date with
            | some sd => sd
            | none =>
              -- current_time = datetime.now() - timedelta(hours=12)
              let current_time := a.now - 12 * usecPerHour
              -- switch_date = int((current_time - start_date) / backfill)
              let k : ℤ :=
                pyInt (((current_time - a.start_date : ℤ) : ℚ) / ((bf : ℤ) : ℚ))
              -- switch_date *= backfill; switch_date += start_date
              a.start_date + k * bf
          let backfill_tasks_count : ℚ :=
            ((switch - a.start_date : ℤ) : ℚ) / ((bf : ℤ) : ℚ)
          if ¬ backfill_tasks_count = (round backfill_tasks_count : ℚ) then
            Except.error msgIntegerMultiple
          else
            let dags : List DagModel :=
              [ { dag_id := a.dag_base_name ++ "_Incremental"
                , start_date := switch
                , end_date := none
                , schedule_interval := some fut
                , catchup := true
                , max_active_runs := 1 }
              , { dag_id := a.dag_base_name ++ "_Incremental_Backfill"
                , start_date := a.start_date
                , end_date := some switch
                , schedule_interval := some bf
                , catchup := true
                , max_active_runs := 1 }
              , { dag_id := a.dag_base_name ++ "_Incremental_Reset"
                , start_date := a.start_date
                , end_date := none
                , schedule_interval := none
                , catchup := false
                , max_active_runs := 1 } ]
            match a.dwh_engine with
            | DwhEngine.postgres => Except.ok dags
            | DwhEngine.snowflake =>
              -- `SnowflakeOperator(...)` at line 175: the name is undefined
              -- in this module, so Python raises NameError here.
              Except.error "NameError: SnowflakeOperator is not defined"
            | DwhEngine.unsupported =>
              Except.error "DWH not implemented for this task!"

/-! ### `ExtendedETS.execute`

Lines 11–44 of `src/ewah/ewah_utils/dag_factory_incremental.py`.  The
sensor's mutable attributes are a state record; `execute` returns the state
after the method runs together with what the method did.  Falsy attribute
values (Python `None`) are modelled by `none`; `x or y` on them is
`pyOr`. -/

/-- `x or y` for attributes whose falsy value is `None`. -/
def pyOr {α : Type} (x y : Option α) : Option α :=
  match x with
  | some v => some v
  | none => y

/-- The attributes of an `ExtendedETS` instance that `execute` reads or
writes.  `execution_delta` is a timedelta in microseconds;
`execution_date_fn` is an unknown callable, represented by an abstract
identifier. -/
structure ETSState where
  external_dag_id : String
  external_task_id : Option String
  execution_delta : Option Int
  execution_date_fn : Option Nat
  backfill_dag_id : Option String
  backfill_execution_delta : Option Int
  backfill_execution_date_fn : Option Nat
  backfill_external_task_id : Option String
deriving DecidableEq

/-- The parts of the Airflow task context that `execute` reads:
`context['dag'].start_date` and `context['execution_date']`. -/
structure EtsContext where
  dag_start_date : Int
  execution_date : Int
deriving DecidableEq

/-- What `ExtendedETS.execute` did: either it delegated to
`ExternalTaskSensor.execute` (with the attribute state it held at that
moment), or it returned without sensing. -/
inductive ETSAction : Type where
  | sensed (cfg : ETSState)
  | autoSucceed
deriving DecidableEq

namespace ExtendedETS

/-- `ExtendedETS.execute` (lines 28–44). -/
def execute (s : ETSState) (ctx : EtsContext) : ETSState × ETSAction :=
  if ctx.dag_start_date = ctx.execution_date then
    match s.backfill_dag_id with
    | some bid =>
      let s1 : ETSState :=
        { s with
          execution_delta := pyOr s.backfill_execution_delta s.execution_delta
          execution_date_fn := pyOr s.backfill_execution_date_fn s.execution_date_fn
          external_task_id := pyOr s.backfill_external_task_id s.external_task_id
          external_dag_id := bid }
      (s1, ETSAction.sensed s1)
    | none => (s, ETSAction.autoSucceed)
  else
    (s, ETSAction.sensed s)

end ExtendedETS

/-! ### Concrete inputs used to instantiate the theorems -/

/-- A paginated endpoint with 6 records served 3 at a time
(`total_entries = 6`). -/
def pagesW : Nat → HttpResp := fun off =>
  if off = 0 then
    ⟨200, "", J.obj [("total_entries", J.num 6),
                     ("dag_runs", J.arr [J.num 1, J.num 2, J.num 3])]⟩
  else if off = 3 then
    ⟨200, "", J.obj [("total_entries", J.num 6),
                     ("dag_runs", J.arr [J.num 4, J.num 5, J.num 6])]⟩
  else
    ⟨200, "", J.obj [("total_entries", J.num 6), ("dag_runs", J.arr [])]⟩

/-- The records served by `pagesW`, page by page. -/
def recsW : Nat → List J := fun i =>
  if i = 0 then [J.num 1, J.num 2, J.num 3]
  else if i = 1 then [J.num 4, J.num 5, J.num 6]
  else []

/-- An endpoint whose second page (offset 3) fails with status 500. -/
def pagesErr : Nat → HttpResp := fun off =>
  if off = 0 then
    ⟨200, "", J.obj [("total_entries", J.num 100),
                     ("dag_runs", J.arr [J.num 1, J.num 2, J.num 3])]⟩
  else
    ⟨500, "Internal Server Error", J.obj []⟩

/-- The records served by `pagesErr` before the failure. -/
def recsErr : Nat → List J := fun _ => [J.num 1, J.num 2, J.num 3]

/-- A non-paginated (singleton) endpoint: no `total_entries` key. -/
def pagesOne : Nat → HttpResp := fun _ =>
  ⟨200, "", J.obj [("status", J.str "healthy")]⟩

/-- A fully valid factory configuration: Postgres engine, incremental
operator, daily backfill interval, hourly future interval, explicit switch
date exactly one backfill interval after the start date. -/
def fargsOk : FactoryArgs :=
  { dag_base_name := "Product"
  , dwh_engine := DwhEngine.postgres
  , start_date := 0
  , etl_operator := { IS_INCREMENTAL := some true }
  , operator_config := { tables := ["orders"] }
  , schedule_interval_backfill := PyTd.td usecPerDay
  , schedule_interval_future := PyTd.td usecPerHour
  , switch_date := some usecPerDay
  , now := 0 }

/-- Like `fargsOk` but the explicit switch date is 25 hours after the start
date: not an integer multiple of the daily backfill interval. -/
def fargsNonMultiple : FactoryArgs :=
  { fargsOk with switch_date := some (usecPerDay + usecPerHour) }

/-- Like `fargsOk` but with the Snowflake DWH engine. -/
def fargsSnowflake : FactoryArgs :=
  { fargsOk with dwh_engine := DwhEngine.snowflake }

/-- Like `fargsOk` but the operator class lacks the `_IS_INCREMENTAL`
attribute. -/
def fargsNoAttr : FactoryArgs :=
  { fargsOk with etl_operator := { IS_INCREMENTAL := none } }

/-- Like `fargsOk` but without an explicit switch date, called three days
after the start date. -/
def fargsDefaultSwitch : FactoryArgs :=
  { fargsOk with switch_date := none, now := 3 * usecPerDay }

/-- Like `fargsOk` but without an explicit switch date and with a start
date one day in the future, so `current_time - start_date` is a negative
one and a half days. -/
def fargsFutureStart : FactoryArgs :=
  { fargsOk with switch_date := none, now := 0, start_date := usecPerDay }

/-- A sensor state as the factory configures the incremental DAG's
sensor: backfill attributes set. -/
def etsS : ETSState :=
  { external_dag_id := "Product_Incremental"
  , external_task_id := some "final"
  , execution_delta := some 3600000000
  , execution_date_fn := none
  , backfill_dag_id := some "Product_Incremental_Backfill"
  , backfill_execution_delta := some 86400000000
  , backfill_execution_date_fn := none
  , backfill_external_task_id := some "final_backfill" }

/-- A context for the first DAG run: execution date equals start date. -/
def etsCtx : EtsContext :=
  { dag_start_date := 0, execution_date := 0 }

/-! ### Arithmetic helpers for the pagination loop -/

/-- The exit offset `((T + p - 1) / p) * p` is at least `T`. -/
lemma exit_offset_ge {T p : Nat} (hp : 0 < p) : T ≤ ((T + p - 1) / p) * p := by
  have h := Nat.lt_div_mul_add (a := T + p - 1) hp
  generalize (T + p - 1) / p * p = m at h ⊢
  omega

/-- Offsets strictly before the exit index are below `T`. -/
lemma offset_lt_total {T p i : Nat} (hp : 0 < p) (hi : i < (T + p - 1) / p) :
    i * p < T := by
  have h1 : ((T + p - 1) / p) * p ≤ T + p - 1 := Nat.div_mul_le_self _ _
  have h3 : 0 < (T + p - 1) / p := Nat.lt_of_le_of_lt (Nat.zero_le i) hi
  have h2 : (i + 1) * p ≤ ((T + p - 1) / p) * p := Nat.mul_le_mul_right _ hi
  have h4 : 1 * p ≤ ((T + p - 1) / p) * p := Nat.mul_le_mul_right _ h3
  rw [Nat.succ_mul] at h2
  rw [Nat.one_mul] at h4
  generalize ((T + p - 1) / p) * p = Q at h1 h2 h4
  generalize i * p = m at h2 ⊢
  omega

/-- Yielding plus the retained remainder loses no records. -/
lemma stepYield_flatten (B : Nat) (d : List J) :
    (stepYield B d).1.flatten ++ (stepYield B d).2 = d := by
  unfold stepYield
  by_cases hB : B ≤ d.length <;> simp [hB]

/-- The final flush emits exactly the pending records. -/
lemma flush_flatten (d : List J) : (flush d).flatten = d := by
  unfold flush
  by_cases he : d.isEmpty <;>
    simp_all [List.isEmpty_iff]

/-- In-loop yields are at least `batch_size` long. -/
lemma stepYield_mem_len {B : Nat} {d b : List J}
    (hb : b ∈ (stepYield B d).1) : B ≤ b.length := by
  unfold stepYield at hb
  by_cases hB : B ≤ d.length <;> simp [hB] at hb
  exact hb ▸ hB

/-- The retained remainder stays shorter than `batch_size`. -/
lemma stepYield_snd_lt {B : Nat} (hB : 0 < B) (d : List J) :
    ((stepYield B d).2).length < B := by
  unfold stepYield
  by_cases h : B ≤ d.length <;> simp [h] <;> omega

/-- A flushed batch is the pending data itself. -/
lemma flush_mem {d b : List J} (hb : b ∈ flush d) : b = d := by
  unfold flush at hb
  by_cases he : d.isEmpty <;> simp [he] at hb
  exact hb

/-- Dropping the last element keeps only elements of the list. -/
lemma mem_of_mem_dropLast {α : Type} {b : α} :
    ∀ {l : List α}, b ∈ l.dropLast → b ∈ l := by
  intro l
  induction l with
  | nil => intro h; simp at h
  | cons x xs ih =>
    cases xs with
    | nil => intro h; simp at h
    | cons y ys =>
      intro h
      rw [List.dropLast_cons₂] at h
      rcases List.mem_cons.mp h with h | h
      · simp [h]
      · exact List.mem_cons_of_mem _ (ih h)

/-- Members of `(l₁ ++ l₂).dropLast` come from `l₁` or from `l₂.dropLast`. -/
lemma mem_dropLast_append {α : Type} {b : α} {l1 l2 : List α}
    (hb : b ∈ (l1 ++ l2).dropLast) : b ∈ l1 ∨ b ∈ l2.dropLast := by
  cases l2 with
  | nil =>
    rw [List.append_nil] at hb
    exact Or.inl (mem_of_mem_dropLast hb)
  | cons x xs =>
    rw [List.dropLast_append_of_ne_nil _ (by simp)] at hb
    rcases List.mem_append.mp hb with h | h
    · exact Or.inl h
    · exact Or.inr h

/-- Main invariant of the `while True` loop of `get_data_in_batches` when
every requested page has status 200 and reports the same `total_entries`
`T`: starting at request index `i` (offset `i * p`) with pending `data`, the
run exits normally, requests exactly the offsets `i*p, …, (n-1)*p` where
`n = numRequests T p`, and the concatenation of the batches it yields is the
pending data followed by all remaining pages' records. -/
lemma run_loop_out (pages : Nat → HttpResp) (p B T : Nat) (recs : Nat → List J)
    (hp : 0 < p)
    (H : ∀ i, i < numRequests T p →
      (pages (i * p)).statusCode = 200 ∧
      parseStep (pages (i * p)).json = StepKind.page (recs i) (T : Int)) :
    ∀ fuel i data, i < numRequests T p → numRequests T p - i ≤ fuel →
      (run pages p B fuel (i * p) data).out = RunOut.ok ∧
      (run pages p B fuel (i * p) data).reqOffsets
        = (List.range' i (numRequests T p - i)).map (fun j => j * p) ∧
      (run pages p B fuel (i * p) data).batches.flatten
        = data ++ ((List.range' i (numRequests T p - i)).map recs).flatten := by
  intro fuel
  induction fuel with
  | zero => intro i data hi hfuel; omega
  | succ fuel ih =>
    intro i data hi hfuel
    obtain ⟨h200, hpage⟩ := H i hi
    by_cases hlast : i + 1 = numRequests T p
    · -- final request: the current offset already reaches `T`
      have hTle : (T : Int) ≤ ((i * p : Nat) : Int) := by
        have h1 : T ≤ i * p := by
          have h2 := exit_offset_ge (T := T) (p := p) hp
          have hieq : i = (T + p - 1) / p := by
            simp only [numRequests] at hlast; omega
          rw [hieq]; exact h2
        exact_mod_cast h1
      have hrange : numRequests T p - i = 1 := by omega
      have hstep : run pages p B (fuel + 1) (i * p) data =
          ⟨(stepYield B (data ++ recs i)).1 ++ flush (stepYield B (data ++ recs i)).2,
           [i * p], RunOut.ok⟩ := by
        simp only [run, h200, hpage, hTle]
        simp
      rw [hstep, hrange]
      refine ⟨rfl, by simp [List.range'_one], ?_⟩
      simp only [List.range'_one, List.map_cons, List.map_nil, List.flatten_cons,
        List.flatten_nil, List.flatten_append, List.append_nil]
      rw [flush_flatten, stepYield_flatten]
    · -- not the final request: the loop continues at offset `(i+1) * p`
      have hilt : i < (T + p - 1) / p := by
        simp only [numRequests] at hi hlast ⊢; omega
      have hTgt : ¬ (T : Int) ≤ ((i * p : Nat) : Int) := by
        have h3 := offset_lt_total hp hilt
        intro hc
        have h4 : (T : Int) ≤ (i * p : Int) := by exact_mod_cast hc
        omega
      have hmul : i * p + p = (i + 1) * p := by rw [Nat.succ_mul]
      have hstep : run pages p B (fuel + 1) (i * p) data =
          ⟨(stepYield B (data ++ recs i)).1 ++
             (run pages p B fuel ((i + 1) * p) (stepYield B (data ++ recs i)).2).batches,
           i * p :: (run pages p B fuel ((i + 1) * p) (stepYield B (data ++ recs i)).2).reqOffsets,
           (run pages p B fuel ((i + 1) * p) (stepYield B (data ++ recs i)).2).out⟩ := by
        simp only [run, h200, hpage, hTgt]
        simp [hmul]
      rw [hstep]
      have hi1 : i + 1 < numRequests T p := by omega
      have hf1 : numRequests T p - (i + 1) ≤ fuel := by omega
      obtain ⟨ihout, ihoffs, ihjoin⟩ :=
        ih (i + 1) (stepYield B (data ++ recs i)).2 hi1 hf1
      have hrs : numRequests T p - i = (numRequests T p - (i + 1)) + 1 := by omega
      refine ⟨ihout, ?_, ?_⟩
      · rw [hrs, List.range'_succ]
        simp [ihoffs]
      · rw [hrs, List.range'_succ]
        simp only [List.map_cons, List.flatten_cons, List.flatten_append]
        rw [ihjoin, ← List.append_assoc, stepYield_flatten, List.append_assoc]

/-- The flush yields at most one batch, so nothing survives `dropLast`. -/
lemma flush_dropLast (d : List J) : (flush d).dropLast = [] := by
  unfold flush
  by_cases he : d.isEmpty <;> simp [he]

/-- Size invariant of the loop: under the same hypotheses as
`run_loop_out`, every yielded batch except possibly the last one has at
least `batch_size` elements (the in-loop yields fire exactly when the
accumulated data reaches `batch_size`; only the final flush may be
shorter). -/
lemma run_loop_sizes (pages : Nat → HttpResp) (p B T : Nat) (recs : Nat → List J)
    (hp : 0 < p) (hB : 0 < B)
    (H : ∀ i, i < numRequests T p →
      (pages (i * p)).statusCode = 200 ∧
      parseStep (pages (i * p)).json = StepKind.page (recs i) (T : Int)) :
    ∀ fuel i data, i < numRequests T p → numRequests T p - i ≤ fuel →
      data.length < B →
      ∀ b ∈ (run pages p B fuel (i * p) data).batches.dropLast, B ≤ b.length := by
  intro fuel
  induction fuel with
  | zero => intro i data hi hfuel; omega
  | succ fuel ih =>
    intro i data hi hfuel hdata
    obtain ⟨h200, hpage⟩ := H i hi
    by_cases hlast : i + 1 = numRequests T p
    · have hTle : (T : Int) ≤ ((i * p : Nat) : Int) := by
        have h1 : T ≤ i * p := by
          have h2 := exit_offset_ge (T := T) (p := p) hp
          have hieq : i = (T + p - 1) / p := by
            simp only [numRequests] at hlast; omega
          rw [hieq]; exact h2
        exact_mod_cast h1
      have hstep : run pages p B (fuel + 1) (i * p) data =
          ⟨(stepYield B (data ++ recs i)).1 ++ flush (stepYield B (data ++ recs i)).2,
           [i * p], RunOut.ok⟩ := by
        simp only [run, h200, hpage, hTle]
        simp
      rw [hstep]
      intro b hb
      rcases mem_dropLast_append hb with h | h
      · exact stepYield_mem_len h
      · rw [flush_dropLast] at h
        simp at h
    · have hilt : i < (T + p - 1) / p := by
        simp only [numRequests] at hi hlast ⊢; omega
      have hTgt : ¬ (T : Int) ≤ ((i * p : Nat) : Int) := by
        have h3 := offset_lt_total hp hilt
        intro hc
        have h4 : (T : Int) ≤ (i * p : Int) := by exact_mod_cast hc
        omega
      have hmul : i * p + p = (i + 1) * p := by rw [Nat.succ_mul]
      have hstep : run pages p B (fuel + 1) (i * p) data =
          ⟨(stepYield B (data ++ recs i)).1 ++
             (run pages p B fuel ((i + 1) * p) (stepYield B (data ++ recs i)).2).batches,
           i * p :: (run pages p B fuel ((i + 1) * p) (stepYield B (data ++ recs i)).2).reqOffsets,
           (run pages p B fuel ((i + 1) * p) (stepYield B (data ++ recs i)).2).out⟩ := by
        simp only [run, h200, hpage, hTgt]
        simp [hmul]
      rw [hstep]
      intro b hb
      rcases mem_dropLast_append hb with h | h
      · exact stepYield_mem_len h
      · have hi1 : i + 1 < numRequests T p := by omega
        have hf1 : numRequests T p - (i + 1) ≤ fuel := by omega
        exact ih (i + 1) (stepYield B (data ++ recs i)).2 hi1 hf1
          (stepYield_snd_lt hB _) b h

/-- If every requested page before index `j` is a well-formed page whose
reported total keeps the loop going, and the request at index `j` comes
back with a status other than 200, the run stops there with the assertion
error carrying that response's text; the batches yielded up to that point
are a prefix of the records received before. -/
lemma run_assert_loop (pages : Nat → HttpResp) (p B : Nat) (j : Nat)
    (recs : Nat → List J) (t : Nat → Int)
    (H : ∀ i, i < j →
      (pages (i * p)).statusCode = 200 ∧
      parseStep (pages (i * p)).json = StepKind.page (recs i) (t i) ∧
      ((i * p : Nat) : Int) < t i)
    (Hj : ¬ (pages (j * p)).statusCode = 200) :
    ∀ fuel i data, i ≤ j → j + 1 - i ≤ fuel →
      (run pages p B fuel (i * p) data).out
        = RunOut.assertFail ((pages (j * p)).text) ∧
      (run pages p B fuel (i * p) data).reqOffsets
        = (List.range' i (j + 1 - i)).map (fun k => k * p) ∧
      ∃ rest, (run pages p B fuel (i * p) data).batches.flatten ++ rest
        = data ++ ((List.range' i (j - i)).map recs).flatten := by
  intro fuel
  induction fuel with
  | zero => intro i data hi hfuel; omega
  | succ fuel ih =>
    intro i data hi hfuel
    by_cases hij : i = j
    · subst hij
      have hstep : run pages p B (fuel + 1) (i * p) data =
          ⟨[], [i * p], RunOut.assertFail ((pages (i * p)).text)⟩ := by
        simp only [run, Hj]
        simp
      rw [hstep]
      refine ⟨rfl, by simp, ⟨data, by simp⟩⟩
    · have hilt : i < j := by omega
      obtain ⟨h200, hpage, hcont⟩ := H i hilt
      have hTgt : ¬ t i ≤ ((i * p : Nat) : Int) := by omega
      have hmul : i * p + p = (i + 1) * p := by rw [Nat.succ_mul]
      have hstep : run pages p B (fuel + 1) (i * p) data =
          ⟨(stepYield B (data ++ recs i)).1 ++
             (run pages p B fuel ((i + 1) * p) (stepYield B (data ++ recs i)).2).batches,
           i * p :: (run pages p B fuel ((i + 1) * p) (stepYield B (data ++ recs i)).2).reqOffsets,
           (run pages p B fuel ((i + 1) * p) (stepYield B (data ++ recs i)).2).out⟩ := by
        simp only [run, h200, hpage, hTgt]
        simp [hmul]
      rw [hstep]
      have hi1 : i + 1 ≤ j := by omega
      have hf1 : j + 1 - (i + 1) ≤ fuel := by omega
      obtain ⟨ihout, ihoffs, rest, ihjoin⟩ :=
        ih (i + 1) (stepYield B (data ++ recs i)).2 hi1 hf1
      have hrs : j + 1 - i = (j + 1 - (i + 1)) + 1 := by omega
      have hrs2 : j - i = (j - (i + 1)) + 1 := by omega
      refine ⟨ihout, ?_, ?_⟩
      · rw [hrs, List.range'_succ]
        simp [ihoffs]
      · refine ⟨rest, ?_⟩
        rw [hrs2, List.range'_succ]
        simp only [List.map_cons, List.flatten_cons, List.flatten_append]
        rw [List.append_assoc, ihjoin, ← List.append_assoc, stepYield_flatten,
          List.append_assoc]

/-- While every response has status 200, the assertion never fires. -/
lemma run_no_assert (pages : Nat → HttpResp) (p B : Nat)
    (H : ∀ o, (pages o).statusCode = 200) :
    ∀ fuel offset data s,
      (run pages p B fuel offset data).out ≠ RunOut.assertFail s := by
  intro fuel
  induction fuel with
  | zero => intro offset data s; simp [run]
  | succ fuel ih =>
    intro offset data s
    simp only [run, H offset]
    cases hps : parseStep (pages offset).json with
    | page records total =>
      by_cases hT : total ≤ (offset : Int)
      · simp [hT]
      · simp [hT]
        exact ih (offset + p) _ s
    | nonPaginated r => simp
    | pyError => simp

/-- An object without a `total_entries` key is treated as a singleton. -/
lemma parseStep_of_no_total {fields : List (String × J)}
    (h : "total_entries" ∉ fields.map (fun kv => kv.1)) :
    parseStep (J.obj fields) = StepKind.nonPaginated (J.obj fields) := by
  simp [parseStep, h]

/-! ### Claims about `get_data_in_batches` -/

/-- Claim C2: for a sequence of paginated responses that all carry
`total_entries = T` (with their records given by `recs`),
`get_data_in_batches` requests exactly the offsets `0, p, 2p, …` until the
offset reaches or exceeds `T` (that is, `numRequests T p = ⌈T/p⌉ + 1`
requests), and the concatenation of the yielded batches is exactly the
concatenation of all pages' records in order. -/
theorem C2_pagination_collects_all_records
    (pages : Nat → HttpResp) (p B T : Nat) (recs : Nat → List J) (fuel : Nat)
    (hp : 0 < p)
    (H : ∀ i, i < numRequests T p →
      (pages (i * p)).statusCode = 200 ∧
      parseStep (pages (i * p)).json = StepKind.page (recs i) (T : Int))
    (hfuel : numRequests T p ≤ fuel) :
    (get_data_in_batches pages p B fuel).out = RunOut.ok ∧
    (get_data_in_batches pages p B fuel).reqOffsets
      = (List.range (numRequests T p)).map (fun i => i * p) ∧
    (get_data_in_batches pages p B fuel).batches.flatten
      = ((List.range (numRequests T p)).map recs).flatten := by
  have h0 : (0 : Nat) < numRequests T p := Nat.succ_pos _
  have h := run_loop_out pages p B T recs hp H fuel 0 [] h0 (by omega)
  rw [Nat.zero_mul, Nat.sub_zero] at h
  unfold get_data_in_batches
  rw [List.range_eq_range']
  simpa using h

/-- Witness for C2 at a concrete endpoint: 6 records, page size 3,
batch size 2, hence 3 requests at offsets 0, 3, 6. -/
theorem C2_pagination_witness :
    (get_data_in_batches pagesW 3 2 3).out = RunOut.ok ∧
    (get_data_in_batches pagesW 3 2 3).reqOffsets
      = (List.range (numRequests 6 3)).map (fun i => i * 3) ∧
    (get_data_in_batches pagesW 3 2 3).batches.flatten
      = ((List.range (numRequests 6 3)).map recsW).flatten :=
  C2_pagination_collects_all_records pagesW 3 2 6 recsW 3 (by decide)
    (fun i hi => by
      have h3 : i < 3 := by simpa [numRequests] using hi
      interval_cases i <;> exact ⟨rfl, rfl⟩)
    (by decide)

/-- Claim C3 fails as stated: with page size 3 and batch size 2, the very
first batch is yielded with 3 records (the generator yields all accumulated
data once it has at least `batch_size` elements, not exactly
`batch_size`), and that batch is not the final one. -/
theorem C3_counterexample_batch_larger_than_batch_size :
    ¬ ∀ b ∈ (get_data_in_batches pagesW 3 2 3).batches.dropLast,
        b.length = 2 := by
  decide

/-- Claim C3 (amended): every batch yielded before the loop exits contains
at least `batch_size` records (the generator yields whenever at least
`batch_size` records have accumulated), with only the final batch allowed
to be smaller. -/
theorem C3_batches_at_least_batch_size
    (pages : Nat → HttpResp) (p B T : Nat) (recs : Nat → List J) (fuel : Nat)
    (hp : 0 < p) (hB : 0 < B)
    (H : ∀ i, i < numRequests T p →
      (pages (i * p)).statusCode = 200 ∧
      parseStep (pages (i * p)).json = StepKind.page (recs i) (T : Int))
    (hfuel : numRequests T p ≤ fuel) :
    ∀ b ∈ (get_data_in_batches pages p B fuel).batches.dropLast,
      B ≤ b.length := by
  have h0 : (0 : Nat) < numRequests T p := Nat.succ_pos _
  have h := run_loop_sizes pages p B T recs hp hB H fuel 0 []
    h0 (by omega) (by simpa using hB)
  rw [Nat.zero_mul] at h
  exact h

/-- Witness for the amended C3 at the same concrete endpoint. -/
theorem C3_batches_witness :
    ((get_data_in_batches pagesW 3 2 3).batches.dropLast.all
      (fun bb => 2 ≤ bb.length)) = true :=
  List.all_eq_true.mpr
    (fun bb hb => decide_eq_true
      (C3_batches_at_least_batch_size pagesW 3 2 6 recsW 3 (by decide) (by decide)
        (fun i hi => by
          have h3 : i < 3 := by simpa [numRequests] using hi
          interval_cases i <;> exact ⟨rfl, rfl⟩)
        (by decide) bb hb))

/-- Claim C6: with `page_size = p > 0` and a fixed reported
`total_entries = T`, the loop terminates: the requested offsets are the
strictly increasing sequence `0, p, 2p, …` and the loop performs at most
`⌈T/p⌉ + 1` requests before `offset ≥ total_entries` holds. -/
theorem C6_pagination_terminates
    (pages : Nat → HttpResp) (p B T : Nat) (recs : Nat → List J) (fuel : Nat)
    (hp : 0 < p)
    (H : ∀ i, i < numRequests T p →
      (pages (i * p)).statusCode = 200 ∧
      parseStep (pages (i * p)).json = StepKind.page (recs i) (T : Int))
    (hfuel : numRequests T p ≤ fuel) :
    (get_data_in_batches pages p B fuel).out = RunOut.ok ∧
    (get_data_in_batches pages p B fuel).reqOffsets
      = (List.range (numRequests T p)).map (fun i => i * p) ∧
    (get_data_in_batches pages p B fuel).reqOffsets.length
      ≤ (T + p - 1) / p + 1 := by
  have h0 : (0 : Nat) < numRequests T p := Nat.succ_pos _
  have h := run_loop_out pages p B T recs hp H fuel 0 [] h0 (by omega)
  rw [Nat.zero_mul, Nat.sub_zero] at h
  unfold get_data_in_batches
  rw [List.range_eq_range']
  refine ⟨h.1, h.2.1, ?_⟩
  rw [h.2.1]
  simp [numRequests]

/-- Witness for C6 at the concrete endpoint: `⌈6/3⌉ + 1 = 3` requests. -/
theorem C6_pagination_witness :
    (get_data_in_batches pagesW 3 2 3).out = RunOut.ok ∧
    (get_data_in_batches pagesW 3 2 3).reqOffsets
      = (List.range (numRequests 6 3)).map (fun i => i * 3) ∧
    (get_data_in_batches pagesW 3 2 3).reqOffsets.length ≤ (6 + 3 - 1) / 3 + 1 :=
  C6_pagination_terminates pagesW 3 2 6 recsW 3 (by decide)
    (fun i hi => by
      have h3 : i < 3 := by simpa [numRequests] using hi
      interval_cases i <;> exact ⟨rfl, rfl⟩)
    (by decide)

/-- Claim C9: if the requests before index `j` succeed with paginated
responses whose totals keep the loop going, and request `j` returns a
status other than 200, the generator stops with the assertion error
carrying that response's text, having yielded only (a prefix of) the
records received so far; conversely, while every response has status 200
the assertion error never occurs. -/
theorem C9_assertion_on_bad_status :
    (∀ (pages : Nat → HttpResp) (p B j : Nat) (recs : Nat → List J)
       (t : Nat → Int) (fuel : Nat),
      (∀ i, i < j →
        (pages (i * p)).statusCode = 200 ∧
        parseStep (pages (i * p)).json = StepKind.page (recs i) (t i) ∧
        ((i * p : Nat) : Int) < t i) →
      ¬ (pages (j * p)).statusCode = 200 →
      j + 1 ≤ fuel →
      (get_data_in_batches pages p B fuel).out
        = RunOut.assertFail ((pages (j * p)).text) ∧
      (get_data_in_batches pages p B fuel).reqOffsets
        = (List.range (j + 1)).map (fun k => k * p) ∧
      ∃ rest, (get_data_in_batches pages p B fuel).batches.flatten ++ rest
        = ((List.range j).map recs).flatten) ∧
    (∀ (pages : Nat → HttpResp) (p B fuel offset : Nat) (data : List J)
       (s : String),
      (∀ o, (pages o).statusCode = 200) →
      (run pages p B fuel offset data).out ≠ RunOut.assertFail s) := by
  constructor
  · intro pages p B j recs t fuel H Hj hfuel
    have h := run_assert_loop pages p B j recs t H Hj fuel 0 [] (by omega) (by omega)
    rw [Nat.zero_mul, Nat.sub_zero] at h
    unfold get_data_in_batches
    simp only [List.range_eq_range']
    simpa using h
  · intro pages p B fuel offset data s H
    exact run_no_assert pages p B H fuel offset data s

/-- Witness for C9: the second request fails with status 500, so the run
stops with `assertFail "Internal Server Error"` after yielding the first
page's records. -/
theorem C9_assertion_witness :
    (get_data_in_batches pagesErr 3 2 2).out
      = RunOut.assertFail ((pagesErr (1 * 3)).text) ∧
    (get_data_in_batches pagesErr 3 2 2).reqOffsets
      = (List.range 2).map (fun k => k * 3) ∧
    ∃ rest, (get_data_in_batches pagesErr 3 2 2).batches.flatten ++ rest
      = ((List.range 1).map recsErr).flatten :=
  C9_assertion_on_bad_status.1 pagesErr 3 2 1 recsErr (fun _ => 100) 2
    (fun i hi => by
      interval_cases i
      exact ⟨rfl, rfl, by decide⟩)
    (by decide) (by decide)

/-- Claim C10: when the first response is an object with no
`total_entries` key, the generator makes exactly one request (offset 0),
yields exactly one batch consisting of the single whole response object,
and terminates. -/
theorem C10_singleton_response
    (pages : Nat → HttpResp) (p B fuel : Nat) (fields : List (String × J))
    (h200 : (pages 0).statusCode = 200)
    (hjson : (pages 0).json = J.obj fields)
    (hkeys : "total_entries" ∉ fields.map (fun kv => kv.1))
    (hfuel : 1 ≤ fuel) :
    get_data_in_batches pages p B fuel
      = ⟨[[J.obj fields]], [0], RunOut.ok⟩ := by
  obtain ⟨f, rfl⟩ : ∃ f, fuel = f + 1 := ⟨fuel - 1, by omega⟩
  unfold get_data_in_batches
  simp only [run, h200, hjson, parseStep_of_no_total hkeys]
  simp

/-- Witness for C10 at a concrete singleton endpoint. -/
theorem C10_singleton_witness :
    get_data_in_batches pagesOne 100 10000 5
      = ⟨[[J.obj [("status", J.str "healthy")]]], [0], RunOut.ok⟩ :=
  C10_singleton_response pagesOne 100 10000 5 [("status", J.str "healthy")]
    rfl rfl (by decide) (by decide)

/-! ### Claims about the DAG factory -/

/-- The `backfill_tasks_count == round(backfill_tasks_count, 0)` test holds
exactly when the backfill interval divides the time span. -/
lemma div_eq_round_iff {d b : Int} (hb : b ≠ 0) :
    ((d : ℚ) / (b : ℚ) = (round ((d : ℚ) / (b : ℚ)) : ℚ)) ↔ b ∣ d := by
  have hbq : ((b : Int) : ℚ) ≠ 0 := by exact_mod_cast hb
  constructor
  · intro h
    have h2 : (d : ℚ) = (b : ℚ) * (round ((d : ℚ) / (b : ℚ)) : ℚ) := by
      rw [← h, mul_comm, div_mul_cancel₀ _ hbq]
    exact ⟨round ((d : ℚ) / (b : ℚ)), by exact_mod_cast h2⟩
  · rintro ⟨c, rfl⟩
    have h4 : ((b * c : Int) : ℚ) / (b : ℚ) = (c : ℚ) := by
      push_cast
      rw [mul_comm, mul_div_assoc, div_self hbq, mul_one]
    rw [h4, round_intCast]

/-- Claim C1: with an explicit `switch_date` and all other validations
passing, `dag_factory_incremental_loading` computes
`(switch_date - start_date) / schedule_interval_backfill` and raises the
integer-multiple exception exactly when that quotient is not an exact
integer (i.e. when the backfill interval does not divide the span); and
when it raises, no DAGs are returned. -/
theorem C1_integer_multiple_check
    (a : FactoryArgs) (sd f b : Int)
    (hsw : a.switch_date = some sd)
    (hop : a.etl_operator.IS_INCREMENTAL = some true)
    (hf : a.schedule_interval_future = PyTd.td f)
    (hb : a.schedule_interval_backfill = PyTd.td b)
    (hday : ¬ b < usecPerDay)
    (hfut : ¬ b < f)
    (htab : ¬ a.operator_config.tables = []) :
    (dag_factory_incremental_loading a = Except.error msgIntegerMultiple
      ↔ ¬ b ∣ (sd - a.start_date)) ∧
    (dag_factory_incremental_loading a = Except.error msgIntegerMultiple →
      ∀ ds, dag_factory_incremental_loading a ≠ Except.ok ds) := by
  have hb0 : b ≠ 0 := by
    have hd : (0 : Int) < usecPerDay := by norm_num [usecPerDay]
    omega
  refine ⟨?_, fun h ds hds => by rw [h] at hds; cases hds⟩
  unfold dag_factory_incremental_loading
  rw [hop, hf, hb, hsw]
  simp only [hday, hfut, htab, if_false, ite_false, Bool.true_eq_false,
    reduceIte]
  by_cases hdvd : b ∣ (sd - a.start_date)
  · have hcheck : ((sd - a.start_date : Int) : ℚ) / ((b : Int) : ℚ)
        = (round (((sd - a.start_date : Int) : ℚ) / ((b : Int) : ℚ)) : ℚ) :=
      (div_eq_round_iff hb0).mpr hdvd
    rw [if_neg (by simpa using hcheck)]
    cases heng : a.dwh_engine <;>
      simp [hdvd, msgIntegerMultiple]
  · have hcheck : ¬ ((sd - a.start_date : Int) : ℚ) / ((b : Int) : ℚ)
        = (round (((sd - a.start_date : Int) : ℚ) / ((b : Int) : ℚ)) : ℚ) :=
      fun h => hdvd ((div_eq_round_iff hb0).mp h)
    rw [if_pos (by simpa using hcheck)]
    simp [hdvd]

/-- Witness for C1: an explicit switch date 25 hours after the start date
with a one-day backfill interval triggers the integer-multiple exception. -/
theorem C1_integer_multiple_witness :
    dag_factory_incremental_loading fargsNonMultiple
      = Except.error msgIntegerMultiple :=
  (C1_integer_multiple_check fargsNonMultiple (usecPerDay + usecPerHour)
      usecPerHour usecPerDay rfl rfl rfl rfl
      (by norm_num [usecPerDay]) (by norm_num [usecPerDay, usecPerHour])
      (by simp [fargsNonMultiple, fargsOk])).1.mpr
    (by
      simp only [fargsNonMultiple, fargsOk]
      norm_num [usecPerDay, usecPerHour])

/-- Claim C4 fails as stated: on a configuration that passes every
validation but selects the Snowflake DWH engine, the factory raises
(`SnowflakeOperator` is referenced at line 175 but never imported by the
module, a `NameError`) and returns no DAGs, although the same
configuration with the Postgres engine succeeds. -/
theorem C4_counterexample_snowflake :
    dag_factory_incremental_loading fargsSnowflake
      = Except.error "NameError: SnowflakeOperator is not defined" ∧
    exOk (dag_factory_incremental_loading fargsOk) = true := by
  constructor
  · simp [dag_factory_incremental_loading, fargsSnowflake, fargsOk,
      usecPerDay, usecPerHour, round_eq]
    norm_num [Int.floor_eq_iff]
  · simp [dag_factory_incremental_loading, fargsOk, exOk,
      usecPerDay, usecPerHour, round_eq]
    norm_num [Int.floor_eq_iff]

/-- Claim C4 (amended: restricted to runs in which the factory returns,
i.e. with the Postgres engine): whenever
`dag_factory_incremental_loading` returns DAGs it returns exactly three —
`<base>_Incremental`, `<base>_Incremental_Backfill` and
`<base>_Incremental_Reset` — and the backfill DAG's `end_date` and the
incremental DAG's `start_date` are both the switch date (the explicit
`switch_date` when one was supplied), so fine-grained scheduling takes
over from coarse-grained scheduling exactly at that boundary. -/
theorem C4_three_dags_boundary
    (a : FactoryArgs) (ds : List DagModel)
    (h : dag_factory_incremental_loading a = Except.ok ds) :
    ∃ f b sw,
      a.schedule_interval_future = PyTd.td f ∧
      a.schedule_interval_backfill = PyTd.td b ∧
      ds = [ { dag_id := a.dag_base_name ++ "_Incremental"
             , start_date := sw, end_date := none
             , schedule_interval := some f
             , catchup := true, max_active_runs := 1 }
           , { dag_id := a.dag_base_name ++ "_Incremental_Backfill"
             , start_date := a.start_date, end_date := some sw
             , schedule_interval := some b
             , catchup := true, max_active_runs := 1 }
           , { dag_id := a.dag_base_name ++ "_Incremental_Reset"
             , start_date := a.start_date, end_date := none
             , schedule_interval := none
             , catchup := false, max_active_runs := 1 } ] ∧
      (∀ sd, a.switch_date = some sd → sw = sd) := by
  unfold dag_factory_incremental_loading at h
  cases hop : a.etl_operator.IS_INCREMENTAL with
  | none => rw [hop] at h; cases h
  | some incr =>
    rw [hop] at h
    cases incr with
    | false => simp at h
    | true =>
      simp only [Bool.true_eq_false, if_false, reduceIte] at h
      cases hfv : a.schedule_interval_future with
      | nonTd => rw [hfv] at h; cases h
      | td f =>
        rw [hfv] at h
        cases hbv : a.schedule_interval_backfill with
        | nonTd => rw [hbv] at h; cases h
        | td b =>
          rw [hbv] at h
          dsimp only at h
          split_ifs at h
          cases heng : a.dwh_engine with
          | snowflake => rw [heng] at h; exact Except.noConfusion h
          | unsupported => rw [heng] at h; exact Except.noConfusion h
          | postgres =>
            rw [heng] at h
            simp only [Except.ok.injEq] at h
            refine ⟨f, b, _, rfl, rfl, h.symm, ?_⟩
            intro sd hsd
            rw [hsd]

/-- Witness for the amended C4: the valid Postgres configuration yields
the three expected DAG records whose boundary is the explicit switch
date. -/
theorem C4_three_dags_witness :
    ∃ f b sw,
      fargsOk.schedule_interval_future = PyTd.td f ∧
      fargsOk.schedule_interval_backfill = PyTd.td b ∧
      ([ ⟨"Product_Incremental", usecPerDay, none, some usecPerHour, true, 1⟩
       , ⟨"Product_Incremental_Backfill", 0, some usecPerDay, some usecPerDay, true, 1⟩
       , ⟨"Product_Incremental_Reset", 0, none, none, false, 1⟩ ] : List DagModel)
        = [ { dag_id := fargsOk.dag_base_name ++ "_Incremental"
            , start_date := sw, end_date := none
            , schedule_interval := some f
            , catchup := true, max_active_runs := 1 }
          , { dag_id := fargsOk.dag_base_name ++ "_Incremental_Backfill"
            , start_date := fargsOk.start_date, end_date := some sw
            , schedule_interval := some b
            , catchup := true, max_active_runs := 1 }
          , { dag_id := fargsOk.dag_base_name ++ "_Incremental_Reset"
            , start_date := fargsOk.start_date, end_date := none
            , schedule_interval := none
            , catchup := false, max_active_runs := 1 } ] ∧
      (∀ sd, fargsOk.switch_date = some sd → sw = sd) :=
  C4_three_dags_boundary fargsOk
    [ ⟨"Product_Incremental", usecPerDay, none, some usecPerHour, true, 1⟩
    , ⟨"Product_Incremental_Backfill", 0, some usecPerDay, some usecPerDay, true, 1⟩
    , ⟨"Product_Incremental_Reset", 0, none, none, false, 1⟩ ]
    (by
      simp [dag_factory_incremental_loading, fargsOk,
        usecPerDay, usecPerHour, round_eq]
      norm_num [Int.floor_eq_iff])

/-- Claim C7: the factory validates its configuration before building
anything: if it returns DAGs, then the operator had a truthy
`_IS_INCREMENTAL` attribute, both schedule intervals were timedeltas, the
backfill interval was at least one day and at least the future interval,
and `operator_config` had a non-empty `tables` entry; and whenever one of
these conditions is violated the factory raises. -/
theorem C7_configuration_validation (a : FactoryArgs) :
    (exOk (dag_factory_incremental_loading a) = true →
      a.etl_operator.IS_INCREMENTAL = some true ∧
      (∃ f, a.schedule_interval_future = PyTd.td f) ∧
      (∃ b, a.schedule_interval_backfill = PyTd.td b ∧ ¬ b < usecPerDay ∧
        ∀ f, a.schedule_interval_future = PyTd.td f → ¬ b < f) ∧
      a.operator_config.tables ≠ []) ∧
    (a.etl_operator.IS_INCREMENTAL = none →
      dag_factory_incremental_loading a
        = Except.error "Invalid operator supplied!") ∧
    (a.etl_operator.IS_INCREMENTAL = some false →
      dag_factory_incremental_loading a
        = Except.error "Operator does not support incremental loading!") ∧
    (a.schedule_interval_future = PyTd.nonTd →
      exOk (dag_factory_incremental_loading a) = false) ∧
    (a.schedule_interval_backfill = PyTd.nonTd →
      exOk (dag_factory_incremental_loading a) = false) ∧
    (∀ b, a.schedule_interval_backfill = PyTd.td b → b < usecPerDay →
      exOk (dag_factory_incremental_loading a) = false) ∧
    (∀ b f, a.schedule_interval_backfill = PyTd.td b →
      a.schedule_interval_future = PyTd.td f → b < f →
      exOk (dag_factory_incremental_loading a) = false) ∧
    (a.operator_config.tables = [] →
      exOk (dag_factory_incremental_loading a) = false) := by
  unfold dag_factory_incremental_loading
  cases hop : a.etl_operator.IS_INCREMENTAL with
  | none => simp [exOk]
  | some incr =>
    cases incr with
    | false => simp [exOk]
    | true =>
      simp only [Bool.true_eq_false, if_false, reduceIte]
      cases hfv : a.schedule_interval_future with
      | nonTd =>
        cases hbv : a.schedule_interval_backfill <;> simp [exOk]
      | td f =>
        cases hbv : a.schedule_interval_backfill with
        | nonTd => simp [exOk]
        | td b =>
          dsimp only
          split_ifs with h1 h2 h3 h4
          · simp [exOk, h1]
          · simp [exOk, h2]
          · simp [exOk, h3]
          · -- every validation passed: the claimed conditions all hold
            simp [exOk]
            refine ⟨fun _ => ⟨?_, ?_⟩, fun hlt => absurd hlt h1,
              fun hlt => absurd hlt h2, fun ht => absurd ht h3⟩
            · omega
            · exact h3
          · -- integer-multiple rejection: the validations still all failed
            -- none of the listed conditions, so nothing to prove beyond
            -- the vacuous implications
            simp [exOk]

/-- Witness for C7: an operator class without the `_IS_INCREMENTAL`
attribute is rejected with the first validation's message. -/
theorem C7_validation_witness :
    dag_factory_incremental_loading fargsNoAttr
      = Except.error "Invalid operator supplied!" :=
  (C7_configuration_validation fargsNoAttr).2.1 rfl

/-- Claim C8 fails as stated: Python's `int()` truncates toward zero, it
does not floor.  With a start date one day in the future (so the default
quotient is a negative -3/2), flooring would give
`start_date + (-2) * backfill = -86400000000`, but the factory computes the
default switch date as `start_date + (-1) * backfill = 0` (visible as the
incremental DAG's start date). -/
theorem C8_counterexample_negative_quotient :
    ⌊((fargsFutureStart.now - 12 * usecPerHour - fargsFutureStart.start_date : Int) : ℚ)
        / ((usecPerDay : Int) : ℚ)⌋ = -2 ∧
    dag_factory_incremental_loading fargsFutureStart
      = Except.ok
          [ ⟨"Product_Incremental", 0, none, some usecPerHour, true, 1⟩
          , ⟨"Product_Incremental_Backfill", usecPerDay, some 0, some usecPerDay, true, 1⟩
          , ⟨"Product_Incremental_Reset", usecPerDay, none, none, false, 1⟩ ] ∧
    fargsFutureStart.start_date + (-2) * usecPerDay ≠ (0 : Int) := by
  refine ⟨?_, ?_, ?_⟩
  · simp only [fargsFutureStart, fargsOk]
    norm_num [usecPerHour, usecPerDay, Int.floor_eq_iff]
  · simp [dag_factory_incremental_loading, fargsFutureStart, fargsOk, pyInt,
      usecPerDay, usecPerHour, round_eq]
    norm_num [Int.floor_eq_iff, Int.ceil_eq_iff]
    have hc : ⌈(-(3 / 2) : ℚ)⌉ = (-1 : Int) := by
      norm_num [Int.ceil_eq_iff]
    rw [hc]
    norm_num
  · simp only [fargsFutureStart, fargsOk]
    norm_num [usecPerDay]

/-- Claim C8 (amended: `int()` truncates toward zero — `pyInt` — which
equals flooring whenever `now - 12h ≥ start_date`): with no explicit
switch date and all validations passing, the factory computes the switch
date as `start_date` plus `int((now - 12h - start_date) / backfill)`
backfill intervals; this default is an exact integer multiple, so the
integer-multiple exception is never raised and the factory returns the
three DAGs. -/
theorem C8_default_switch_exact_multiple
    (a : FactoryArgs) (f b : Int)
    (hsw : a.switch_date = none)
    (hop : a.etl_operator.IS_INCREMENTAL = some true)
    (hf : a.schedule_interval_future = PyTd.td f)
    (hb : a.schedule_interval_backfill = PyTd.td b)
    (hday : ¬ b < usecPerDay)
    (hfut : ¬ b < f)
    (htab : ¬ a.operator_config.tables = [])
    (heng : a.dwh_engine = DwhEngine.postgres) :
    dag_factory_incremental_loading a ≠ Except.error msgIntegerMultiple ∧
    dag_factory_incremental_loading a
      = Except.ok
          [ { dag_id := a.dag_base_name ++ "_Incremental"
            , start_date := a.start_date +
                pyInt (((a.now - 12 * usecPerHour - a.start_date : Int) : ℚ)
                  / ((b : Int) : ℚ)) * b
            , end_date := none
            , schedule_interval := some f
            , catchup := true, max_active_runs := 1 }
          , { dag_id := a.dag_base_name ++ "_Incremental_Backfill"
            , start_date := a.start_date
            , end_date := some (a.start_date +
                pyInt (((a.now - 12 * usecPerHour - a.start_date : Int) : ℚ)
                  / ((b : Int) : ℚ)) * b)
            , schedule_interval := some b
            , catchup := true, max_active_runs := 1 }
          , { dag_id := a.dag_base_name ++ "_Incremental_Reset"
            , start_date := a.start_date
            , end_date := none
            , schedule_interval := none
            , catchup := false, max_active_runs := 1 } ] := by
  have hb0 : b ≠ 0 := by
    have hd : (0 : Int) < usecPerDay := by norm_num [usecPerDay]
    omega
  have hok : dag_factory_incremental_loading a
      = Except.ok
          [ { dag_id := a.dag_base_name ++ "_Incremental"
            , start_date := a.start_date +
                pyInt (((a.now - 12 * usecPerHour - a.start_date : Int) : ℚ)
                  / ((b : Int) : ℚ)) * b
            , end_date := none
            , schedule_interval := some f
            , catchup := true, max_active_runs := 1 }
          , { dag_id := a.dag_base_name ++ "_Incremental_Backfill"
            , start_date := a.start_date
            , end_date := some (a.start_date +
                pyInt (((a.now - 12 * usecPerHour - a.start_date : Int) : ℚ)
                  / ((b : Int) : ℚ)) * b)
            , schedule_interval := some b
            , catchup := true, max_active_runs := 1 }
          , { dag_id := a.dag_base_name ++ "_Incremental_Reset"
            , start_date := a.start_date
            , end_date := none
            , schedule_interval := none
            , catchup := false, max_active_runs := 1 } ] := by
    unfold dag_factory_incremental_loading
    rw [hop, hf, hb, hsw, heng]
    simp only [hday, hfut, htab, if_false, ite_false, Bool.true_eq_false,
      reduceIte]
    have hdvd : b ∣ ((a.start_date +
        pyInt (((a.now - 12 * usecPerHour - a.start_date : Int) : ℚ)
          / ((b : Int) : ℚ)) * b) - a.start_date) := by
      refine ⟨pyInt (((a.now - 12 * usecPerHour - a.start_date : Int) : ℚ)
          / ((b : Int) : ℚ)), ?_⟩
      ring
    have hcheck := (div_eq_round_iff hb0).mpr hdvd
    rw [if_neg (by simpa using hcheck)]
  exact ⟨by rw [hok]; exact fun hc => Except.noConfusion hc, hok⟩

/-- Witness for the amended C8: called three days after the start date
with a daily backfill interval, the computed default switch date is an
exact multiple and the factory succeeds. -/
theorem C8_default_switch_witness :
    dag_factory_incremental_loading fargsDefaultSwitch
      ≠ Except.error msgIntegerMultiple ∧
    dag_factory_incremental_loading fargsDefaultSwitch
      = Except.ok
          [ { dag_id := fargsDefaultSwitch.dag_base_name ++ "_Incremental"
            , start_date := fargsDefaultSwitch.start_date +
                pyInt (((fargsDefaultSwitch.now - 12 * usecPerHour
                    - fargsDefaultSwitch.start_date : Int) : ℚ)
                  / ((usecPerDay : Int) : ℚ)) * usecPerDay
            , end_date := none
            , schedule_interval := some usecPerHour
            , catchup := true, max_active_runs := 1 }
          , { dag_id := fargsDefaultSwitch.dag_base_name ++ "_Incremental_Backfill"
            , start_date := fargsDefaultSwitch.start_date
            , end_date := some (fargsDefaultSwitch.start_date +
                pyInt (((fargsDefaultSwitch.now - 12 * usecPerHour
                    - fargsDefaultSwitch.start_date : Int) : ℚ)
                  / ((usecPerDay : Int) : ℚ)) * usecPerDay)
            , schedule_interval := some usecPerDay
            , catchup := true, max_active_runs := 1 }
          , { dag_id := fargsDefaultSwitch.dag_base_name ++ "_Incremental_Reset"
            , start_date := fargsDefaultSwitch.start_date
            , end_date := none
            , schedule_interval := none
            , catchup := false, max_active_runs := 1 } ] :=
  C8_default_switch_exact_multiple fargsDefaultSwitch usecPerHour usecPerDay
    rfl rfl rfl rfl
    (by norm_num [usecPerDay])
    (by norm_num [usecPerDay, usecPerHour])
    (by simp [fargsDefaultSwitch, fargsOk])
    rfl

/-! ### Claim about `ExtendedETS.execute` -/

/-- Claim C5: on the first run (execution date equals the DAG's start
date) with `backfill_dag_id` set, the sensor senses the backfill DAG —
`external_dag_id` becomes `backfill_dag_id` and `execution_delta`,
`execution_date_fn` and `external_task_id` are replaced by their
`backfill_*` counterparts when those are set; on the first run without
`backfill_dag_id` it succeeds immediately without sensing; on any other
run it senses its configured external DAG with its attributes
unchanged. -/
theorem C5_sensor_backfill_dispatch (s : ETSState) (ctx : EtsContext) :
    (ctx.dag_start_date = ctx.execution_date →
      ∀ bid, s.backfill_dag_id = some bid →
        ExtendedETS.execute s ctx =
          ({ s with
              execution_delta := pyOr s.backfill_execution_delta s.execution_delta
              execution_date_fn := pyOr s.backfill_execution_date_fn s.execution_date_fn
              external_task_id := pyOr s.backfill_external_task_id s.external_task_id
              external_dag_id := bid },
           ETSAction.sensed
             { s with
                execution_delta := pyOr s.backfill_execution_delta s.execution_delta
                execution_date_fn := pyOr s.backfill_execution_date_fn s.execution_date_fn
                external_task_id := pyOr s.backfill_external_task_id s.external_task_id
                external_dag_id := bid })) ∧
    (ctx.dag_start_date = ctx.execution_date → s.backfill_dag_id = none →
      ExtendedETS.execute s ctx = (s, ETSAction.autoSucceed)) ∧
    (ctx.dag_start_date ≠ ctx.execution_date →
      ExtendedETS.execute s ctx = (s, ETSAction.sensed s)) := by
  unfold ExtendedETS.execute
  refine ⟨?_, ?_, ?_⟩
  · intro he bid hbid
    rw [if_pos he, hbid]
  · intro he hbid
    rw [if_pos he, hbid]
  · intro hne
    rw [if_neg hne]

/-- Witness for C5: on the first run of a sensor configured with backfill
attributes, the sensor retargets the backfill DAG with the backfill
delta and task id. -/
theorem C5_sensor_witness :
    ExtendedETS.execute etsS etsCtx =
      ({ etsS with
          execution_delta := pyOr etsS.backfill_execution_delta etsS.execution_delta
          execution_date_fn := pyOr etsS.backfill_execution_date_fn etsS.execution_date_fn
          external_task_id := pyOr etsS.backfill_external_task_id etsS.external_task_id
          external_dag_id := "Product_Incremental_Backfill" },
       ETSAction.sensed
         { etsS with
            execution_delta := pyOr etsS.backfill_execution_delta etsS.execution_delta
            execution_date_fn := pyOr etsS.backfill_execution_date_fn etsS.execution_date_fn
            external_task_id := pyOr etsS.backfill_external_task_id etsS.external_task_id
            external_dag_id := "Product_Incremental_Backfill" }) :=
  (C5_sensor_backfill_dispatch etsS etsCtx).1 rfl
    "Product_Incremental_Backfill" rfl

end Ewah
